import Mathlib

/-!
Shallow embedding of the request-translation layer of `src/app.ts`
(an Express + MongoDB article-search service).

The embedded parts are exactly the ones the specification claims talk
about:

* the filter / pagination construction of `GET /api/search`
  (app.ts lines 48-126),
* the single-article fetch `GET /api/search/:id` (lines 129-143),
* the bulk delete `DELETE /api/search/multiple` (lines 172-189).

Conventions of the embedding:

* An HTTP query parameter is `Option String` (`none` = parameter absent
  from the URL).  Express delivers present parameters as strings.
* JavaScript truthiness of such a parameter: `undefined` and `""` are
  falsy, every other string is truthy (`truthy`).
* `parseInt` is modelled by `jsParseInt : String → Option Int`, where
  `none` stands for `NaN` (no leading digits after optional sign).
  The legacy `0x`-prefix path of `parseInt` is outside the input space
  used by the claims and is not modelled.
* `new Date(s)` is modelled as the raw string `s`: the Date value is a
  deterministic function of the string and the claims never compare two
  distinct date strings, so the string itself is kept as the bound value.
* A MongoDB filter document is the structure `Filters`; a field that the
  handler never assigns is `none`.  A numeric field holds
  `Option (Option Int)`: the outer option is presence in the filter
  document, the inner one is the `parseInt` result (`none` = `NaN`).
* `new RegExp(q, "i")` applied to a title is modelled by a small regex
  interpreter (`regexTestI`) faithful on the subset of patterns built
  from literal characters, the `.` wildcard (excluding the four line
  terminators, as in JS without the `s` flag) and the quantifiers `*`,
  `+`, `?` on single atoms.  A pattern containing any other syntax
  character, or a quantifier with no atom before it (a SyntaxError in
  JS), is outside the modelled subset: parsing yields `none` rather
  than a wrong literal reading.
* MongoDB ObjectId equality is equality of the 12 decoded bytes, hence
  case-insensitive equality of the 24-digit hex strings (`oidEq`).
  `new ObjectId(s)` succeeds exactly when `ObjectId.isValid s` (24 hex
  digits); on any other string it throws, which the handlers catch.
* A store is an association list `List (String × α)` from canonical hex
  id to document; handler outcomes record the HTTP status, the body or
  message, the resulting store and whether the store was queried at all.
-/

namespace BlackcofferApi

/-- JavaScript truthiness of an optional string query parameter:
`undefined` and the empty string are falsy. -/
def truthy : Option String → Bool
  | none => false
  | some s => s != ""

/-- The string value of a parameter (used only where the handler has
already checked truthiness; `""` for an absent parameter). -/
def strOf : Option String → String
  | none => ""
  | some s => s

/-- Value of a decimal digit character, `none` for a non-digit. -/
def digitVal (c : Char) : Option Nat :=
  if c.isDigit then some (c.toNat - '0'.toNat) else none

/-- Longest prefix of decimal digits, as digit values. -/
def leadingDigits : List Char → List Nat
  | [] => []
  | c :: cs =>
    match digitVal c with
    | some d => d :: leadingDigits cs
    | none => []

/-- Decimal value of a digit list (most significant first). -/
def digitsToNat (ds : List Nat) : Nat :=
  ds.foldl (fun a d => a * 10 + d) 0

/-- Whitespace skipped by JavaScript parseInt. -/
def isJsSpace (c : Char) : Bool :=
  c = ' ' || c = '\t' || c = '\n' || c = '\r'

/-- JavaScript `parseInt(s)` (decimal): skip whitespace, optional sign,
longest digit prefix; `none` models `NaN` (no digits found). -/
def jsParseInt (s : String) : Option Int :=
  let cs := s.toList.dropWhile isJsSpace
  let signed : Int × List Char :=
    match cs with
    | '-' :: t => (-1, t)
    | '+' :: t => (1, t)
    | _ => (1, cs)
  let ds := leadingDigits signed.2
  if ds.isEmpty then none
  else some (signed.1 * (digitsToNat ds : Int))

/-- Hexadecimal digit test. -/
def isHexDigit (c : Char) : Bool :=
  c.isDigit || ('a' ≤ c && c ≤ 'f') || ('A' ≤ c && c ≤ 'F')

/-- MongoDB `ObjectId.isValid` on a string: a 24-character hex string.
`new ObjectId(s)` succeeds exactly on these strings and throws
otherwise. -/
def ObjectId.isValid (s : String) : Bool :=
  s.length == 24 && s.toList.all isHexDigit

/-- ObjectId equality of two hex-string ids: equality of the decoded
bytes, i.e. case-insensitive equality of the hex strings. -/
def oidEq (a b : String) : Bool :=
  a.toLower == b.toLower

/-- The query parameters destructured from `req.query` in
`GET /api/search` (app.ts lines 50-67); `none` = absent. -/
structure QueryParams where
  query : Option String
  end_year : Option String
  intensity : Option String
  sector : Option String
  topic : Option String
  region : Option String
  start_year : Option String
  country : Option String
  relevance : Option String
  pestle : Option String
  source : Option String
  likelihood : Option String
  start_date : Option String
  end_date : Option String
  page : Option String
  limit : Option String
deriving DecidableEq

/-- A MongoDB range condition `{$gte: …, $lte: …}` on a date field;
the bound values are the raw date strings (see module docstring). -/
structure RangeCond where
  gte : Option String
  lte : Option String
deriving DecidableEq

/-- The filter document built by `GET /api/search` (app.ts lines
69-108).  Outer `none` = field never assigned.  Numeric fields carry
the `parseInt` result, inner `none` = `NaN`. -/
structure Filters where
  title : Option String
  end_year : Option (Option Int)
  intensity : Option (Option Int)
  sector : Option String
  topic : Option String
  region : Option String
  start_year : Option String
  country : Option String
  relevance : Option (Option Int)
  pestle : Option String
  source : Option String
  likelihood : Option (Option Int)
  added : Option RangeCond
  published : Option RangeCond
deriving DecidableEq

/-- The filter construction of `GET /api/search` (app.ts lines 69-108).

Each JavaScript statement `if (x) filters.f = v` becomes the field
`f := if truthy x then some v else none`: the statements are
independent, so the sequential assignments and the record literal build
the same document.  `filters.title` keeps the regex source string.

Date block (lines 92-108): when `start_date` or `end_date` is truthy the
handler assigns `filters.added` and `filters.published`, puts `$gte`
(resp. `$lte`) on both when `start_date` (resp. `end_date`) is truthy,
then deletes a condition again when neither of its bounds is set (a
`Date` object is always truthy in JavaScript, including an Invalid
Date, so the check is exactly on both bounds being unassigned). -/
def buildFilters (q : QueryParams) : Filters :=
  let dateActive := truthy q.start_date || truthy q.end_date
  let dateCond : RangeCond :=
    { gte := if truthy q.start_date then some (strOf q.start_date) else none
      lte := if truthy q.end_date then some (strOf q.end_date) else none }
  let datePart : Option RangeCond :=
    if dateActive then
      if dateCond.gte.isNone && dateCond.lte.isNone then none else some dateCond
    else none
  { title := if truthy q.query then some (strOf q.query) else none
    end_year := if truthy q.end_year then some (jsParseInt (strOf q.end_year)) else none
    intensity := if truthy q.intensity then some (jsParseInt (strOf q.intensity)) else none
    sector := if truthy q.sector then some (strOf q.sector) else none
    topic := if truthy q.topic then some (strOf q.topic) else none
    region := if truthy q.region then some (strOf q.region) else none
    start_year := if truthy q.start_year then some (strOf q.start_year) else none
    country := if truthy q.country then some (strOf q.country) else none
    relevance := if truthy q.relevance then some (jsParseInt (strOf q.relevance)) else none
    pestle := if truthy q.pestle then some (strOf q.pestle) else none
    source := if truthy q.source then some (strOf q.source) else none
    likelihood := if truthy q.likelihood then some (jsParseInt (strOf q.likelihood)) else none
    added := datePart
    published := datePart }

/-- app.ts line 110: `const pageNum = parseInt(page as string)` with the
destructuring default `page = 1` (the number 1, coerced to \"1\" by
`parseInt`) applying only when the parameter is absent. -/
def pageNum (q : QueryParams) : Option Int :=
  jsParseInt (q.page.getD "1")

/-- app.ts line 111: `const limitNum = parseInt(limit as string)` with
destructuring default `limit = 20`. -/
def limitNum (q : QueryParams) : Option Int :=
  jsParseInt (q.limit.getD "20")

/-- Atom of the modelled regex subset: a literal character (stored
lowercased, for the `i` flag) or the `.` wildcard. -/
inductive RAtom where
  | lit (c : Char)
  | dot
deriving DecidableEq

/-- Quantifier attached to an atom: exactly once, `*` (zero or more),
`+` (one or more) or `?` (zero or one). -/
inductive RQuant where
  | one
  | star
  | plus
  | opt
deriving DecidableEq

/-- The JavaScript regular-expression syntax characters: a pattern made
only of other characters is matched literally by `new RegExp`. -/
def isRegexMeta (c : Char) : Bool :=
  c = '.' || c = '*' || c = '+' || c = '?' || c = '(' || c = ')' ||
  c = '[' || c = ']' || c = '\x7b' || c = '\x7d' || c = '|' || c = '^' ||
  c = '$' || c = '\\'

/-- The quantifier characters of the modelled subset. -/
def isQuantChar (c : Char) : Bool :=
  c = '*' || c = '+' || c = '?'

/-- Metacharacters whose semantics the model does not interpret
(groups, classes, alternation, anchors, escapes, brace quantifiers):
patterns containing them are outside the modelled subset. -/
def isUnsupportedMeta (c : Char) : Bool :=
  isRegexMeta c && !(c = '.' || isQuantChar c)

/-- The quantifier denoted by a quantifier character. -/
def quantOf (c : Char) : RQuant :=
  if c = '*' then RQuant.star else if c = '+' then RQuant.plus else RQuant.opt

/-- Compile a pattern (as a character list) into quantified atoms.
`none` when the pattern is outside the modelled subset: it contains an
uninterpreted metacharacter, or a quantifier with no atom before it
(the latter is a SyntaxError in JavaScript, e.g. `new RegExp("*a")`
throws, as does a doubled quantifier such as "a**"). -/
def parseAtoms : List Char → Option (List (RAtom × RQuant))
  | [] => some []
  | [c] =>
    if isUnsupportedMeta c || isQuantChar c then none
    else
      some [(if c = '.' then RAtom.dot else RAtom.lit c.toLower, RQuant.one)]
  | c :: q :: cs2 =>
    if isUnsupportedMeta c || isQuantChar c then none
    else
      let a : RAtom := if c = '.' then RAtom.dot else RAtom.lit c.toLower
      if isQuantChar q then
        (parseAtoms cs2).map (fun r => (a, quantOf q) :: r)
      else
        (parseAtoms (q :: cs2)).map (fun r => (a, RQuant.one) :: r)

/-- Whether an atom accepts a text character (text lowercased for the
`i` flag).  The `.` wildcard matches every character except the four
line terminators, exactly as in JavaScript without the `s` flag. -/
def atomMatch : RAtom → Char → Bool
  | RAtom.lit c, t => c = t.toLower
  | RAtom.dot, t =>
    !(t = '\n' || t = '\r' || t.toNat = 0x2028 || t.toNat = 0x2029)

/-- Whether a quantified-atom sequence can match the empty string. -/
def nullable : List (RAtom × RQuant) → Bool
  | [] => true
  | (_, RQuant.one) :: _ => false
  | (_, RQuant.plus) :: _ => false
  | (_, RQuant.opt) :: ps => nullable ps
  | (_, RQuant.star) :: ps => nullable ps

/-- Brzozowski derivative: all pattern remainders after the sequence
consumes the character `t`. -/
def deriv (t : Char) : List (RAtom × RQuant) → List (List (RAtom × RQuant))
  | [] => []
  | (a, RQuant.one) :: ps => if atomMatch a t then [ps] else []
  | (a, RQuant.opt) :: ps =>
    (if atomMatch a t then [ps] else []) ++ deriv t ps
  | (a, RQuant.star) :: ps =>
    (if atomMatch a t then [(a, RQuant.star) :: ps] else []) ++ deriv t ps
  | (a, RQuant.plus) :: ps => if atomMatch a t then [(a, RQuant.star) :: ps] else []

/-- Whether some alternative of the set matches a prefix of the text
(stepping all alternatives by derivative on each character). -/
def matchAlts : List (List (RAtom × RQuant)) → List Char → Bool
  | alts, [] => alts.any nullable
  | alts, t :: ts => alts.any nullable || matchAlts (alts.flatMap (deriv t)) ts

/-- Unanchored search: the sequence matches starting at some position
of the text (the existential semantics of backtracking `test`). -/
def searchSeq (ps : List (RAtom × RQuant)) : List Char → Bool
  | [] => matchAlts [ps] []
  | t :: ts => matchAlts [ps] (t :: ts) || searchSeq ps ts

/-- JavaScript `new RegExp(pattern, "i").test(text)` on the modelled
subset (literals, `.`, and the quantifiers `*`, `+`, `?` on single
atoms); `none` when the pattern is outside the subset. -/
def regexTestI (pattern text : String) : Option Bool :=
  (parseAtoms pattern.toList).map (fun ps => searchSeq ps text.toList)

/-- Case-insensitive prefix test on character lists. -/
def isPrefixCI : List Char → List Char → Bool
  | [], _ => true
  | _ :: _, [] => false
  | p :: ps, t :: ts => (p.toLower = t.toLower) && isPrefixCI ps ts

/-- Case-insensitive substring search of a pattern inside a text. -/
def containsFromCI (ps : List Char) : List Char → Bool
  | [] => isPrefixCI ps []
  | t :: ts => isPrefixCI ps (t :: ts) || containsFromCI ps ts

/-- The text contains the pattern as a case-insensitive substring. -/
def containsCI (text pat : String) : Bool :=
  containsFromCI pat.toList text.toList

/-- Whether a document title passes the title condition of a filter
document (line 72: `filters.title = {$regex: new RegExp(query, "i")}`;
no title field in the filter accepts every document); `none` when the
stored pattern falls outside the modelled regex subset. -/
def docTitleMatches (f : Filters) (title : String) : Option Bool :=
  match f.title with
  | none => some true
  | some pat => regexTestI pat title

/-- The response envelope of `GET /api/search` (app.ts lines 117-122). -/
structure ListResponse (α : Type) where
  totalRecords : Nat
  totalPages : Nat
  currentPage : Nat
  articles : List α
deriving DecidableEq

/-- JavaScript `Math.ceil(t / l)` for a natural `t` and positive
natural `l`. -/
def mathCeilDiv (t l : Nat) : Nat :=
  (t + l - 1) / l

/-- The list endpoint core (app.ts lines 110-122) on the store list
already matching the filter, for well-formed positive `page` and
`limit`: `skip = (pageNum - 1) * limitNum`, the articles are
`find(filters).skip(skip).limit(limitNum)`, and the envelope carries
`countDocuments(filters)`, `Math.ceil(total / limitNum)` and
`pageNum`. -/
def listEndpoint (matching : List α) (page limit : Nat) : ListResponse α :=
  let skip := (page - 1) * limit
  { totalRecords := matching.length
    totalPages := mathCeilDiv matching.length limit
    currentPage := page
    articles := (matching.drop skip).take limit }

/-- Outcome of `GET /api/search/:id`. -/
structure GetOutcome (α : Type) where
  status : Nat
  body : Option α
  storeQueried : Bool
deriving DecidableEq

/-- `GET /api/search/:id` (app.ts lines 129-143).  The handler calls
`findOne({_id: new ObjectId(id)})` inside try/catch with no validity
check: on an invalid id the `ObjectId` constructor throws before the
store call and the catch block answers 500; otherwise 404 when no
document matches and 200 with the document when one does. -/
def getByIdHandler (store : List (String × α)) (id : String) : GetOutcome α :=
  if ObjectId.isValid id then
    match store.find? (fun d => oidEq d.1 id) with
    | some d => { status := 200, body := some d.2, storeQueried := true }
    | none => { status := 404, body := none, storeQueried := true }
  else
    { status := 500, body := none, storeQueried := false }

/-- Outcome of `DELETE /api/search/multiple`. -/
structure DeleteManyOutcome (α : Type) where
  status : Nat
  message : Option String
  newStore : List (String × α)
  storeQueried : Bool
deriving DecidableEq

/-- `DELETE /api/search/multiple` (app.ts lines 172-189) for a request
body whose `ids` is an array of strings (so `Array.isArray(ids)`
holds): if `ids.some(id => !ObjectId.isValid(id))` the handler answers
400 before any store call; otherwise it runs
`deleteMany({_id: {$in: objectIds}})` and answers 200 with
`` `${result.deletedCount} records deleted successfully` ``. -/
def deleteManyHandler (store : List (String × α)) (ids : List String) :
    DeleteManyOutcome α :=
  if ids.any (fun id => ! ObjectId.isValid id) then
    { status := 400, message := none, newStore := store, storeQueried := false }
  else
    let deletedCount := (store.filter (fun d => ids.any (fun i => oidEq i d.1))).length
    { status := 200
      message := some (toString deletedCount ++ " records deleted successfully")
      newStore := store.filter (fun d => ! ids.any (fun i => oidEq i d.1))
      storeQueried := true }

/-- All-absent query parameters (a request with no query string). -/
def emptyQ : QueryParams :=
  { query := none, end_year := none, intensity := none, sector := none,
    topic := none, region := none, start_year := none, country := none,
    relevance := none, pestle := none, source := none, likelihood := none,
    start_date := none, end_date := none, page := none, limit := none }

end BlackcofferApi

namespace BlackcofferApi

/-! Helper lemmas shared by the claim theorems. -/

/-- Splitting a store by a predicate preserves its length (used to read
the bulk-delete count as the number of records actually removed). -/
theorem store_filter_split {α : Type} (store : List (String × α)) (ids : List String) :
    (store.filter (fun d => ids.any (fun i => oidEq i d.1))).length +
      (store.filter (fun d => ! ids.any (fun i => oidEq i d.1))).length = store.length := by
  induction store with
  | nil => rfl
  | cons a t ih =>
    cases h : ids.any (fun i => oidEq i a.1) <;> simp [List.filter_cons, h] <;> omega

/-- The empty alternative set matches nothing. -/
theorem matchAlts_nil (cs : List Char) : matchAlts [] cs = false := by
  induction cs with
  | nil => rfl
  | cons t ts ih => simp [matchAlts, ih]

/-- On a sequence of plain literal atoms, prefix matching is exactly
the case-insensitive prefix test. -/
theorem matchAlts_literal (ps : List Char) (cs : List Char) :
    matchAlts [ps.map (fun c => (RAtom.lit c.toLower, RQuant.one))] cs =
      isPrefixCI ps cs := by
  induction ps generalizing cs with
  | nil =>
    cases cs with
    | nil => rfl
    | cons t ts => simp [matchAlts, nullable, isPrefixCI]
  | cons p pt ih =>
    cases cs with
    | nil => simp [matchAlts, nullable, isPrefixCI]
    | cons t ts =>
      by_cases h : p.toLower = t.toLower
      · simp [matchAlts, nullable, deriv, atomMatch, h, isPrefixCI, ih ts]
      · simp [matchAlts, nullable, deriv, atomMatch, h, isPrefixCI, matchAlts_nil]

/-- On a sequence of plain literal atoms, unanchored search is exactly
the case-insensitive substring test. -/
theorem searchSeq_literal (ps : List Char) (ts : List Char) :
    searchSeq (ps.map (fun c => (RAtom.lit c.toLower, RQuant.one))) ts =
      containsFromCI ps ts := by
  induction ts with
  | nil => simp [searchSeq, containsFromCI, matchAlts_literal ps []]
  | cons t tt ih => simp [searchSeq, containsFromCI, matchAlts_literal ps (t :: tt), ih]

/-- A pattern containing no regex syntax character compiles to its
plain literal atoms. -/
theorem parseAtoms_literal (ps : List Char) (h : ∀ c ∈ ps, isRegexMeta c = false) :
    parseAtoms ps = some (ps.map (fun c => (RAtom.lit c.toLower, RQuant.one))) := by
  induction ps with
  | nil => rfl
  | cons c cs ih =>
    have hc : isRegexMeta c = false := h c (by simp)
    have hcs : ∀ x ∈ cs, isRegexMeta x = false := fun x hx => h x (by simp [hx])
    have hq : isQuantChar c = false := by
      cases hq0 : isQuantChar c
      · rfl
      · rcases (by simpa [isQuantChar] using hq0 : (c = '*' ∨ c = '+') ∨ c = '?') with
          (h1 | h1) | h1 <;> subst h1 <;> simp [isRegexMeta] at hc
    have hu : isUnsupportedMeta c = false := by
      unfold isUnsupportedMeta
      rw [hc]
      rfl
    have hdot : ¬ (c = '.') := by
      intro h1
      subst h1
      simp [isRegexMeta] at hc
    cases cs with
    | nil =>
      simp only [parseAtoms]
      rw [hu, hq]
      simp [hdot]
    | cons q cs2 =>
      have hq2 : isQuantChar q = false := by
        have hcq : isRegexMeta q = false := hcs q (by simp)
        cases hq0 : isQuantChar q
        · rfl
        · rcases (by simpa [isQuantChar] using hq0 : (q = '*' ∨ q = '+') ∨ q = '?') with
            (h1 | h1) | h1 <;> subst h1 <;> simp [isRegexMeta] at hcq
      simp only [parseAtoms]
      rw [hu, hq, hq2]
      simp [hdot, ih hcs]

/-- The skip of the first page past the data is at least the data
length: `t ≤ ceil(t / l) * l`. -/
theorem le_mathCeilDiv_mul (t l : Nat) (hl : 1 ≤ l) : t ≤ mathCeilDiv t l * l := by
  have hdm := Nat.div_add_mod (t + l - 1) l
  have hmlt : (t + l - 1) % l < l := Nat.mod_lt _ (by omega)
  unfold mathCeilDiv
  obtain ⟨m, hm⟩ : ∃ m, m = l * ((t + l - 1) / l) := ⟨_, rfl⟩
  rw [← hm] at hdm
  have ht : t ≤ m := by omega
  calc t ≤ m := ht
    _ = (t + l - 1) / l * l := by rw [hm, Nat.mul_comm]

/-- The integer formula `(t + l - 1) / l` computed by the embedding of
`Math.ceil(total / limitNum)` is the mathematical ceiling of the exact
rational quotient. -/
theorem mathCeilDiv_eq_ceil (t l : Nat) (hl : 1 ≤ l) :
    ((mathCeilDiv t l : Nat) : ℤ) = Int.ceil ((t : ℚ) / (l : ℚ)) := by
  have hl0 : (0 : ℚ) < (l : ℚ) := by exact_mod_cast hl
  have hdm := Nat.div_add_mod (t + l - 1) l
  have hmlt : (t + l - 1) % l < l := Nat.mod_lt _ (by omega)
  obtain ⟨m, hm⟩ : ∃ m, m = l * ((t + l - 1) / l) := ⟨_, rfl⟩
  rw [← hm] at hdm
  have h1 : t ≤ m := by omega
  have h2 : m < t + l := by omega
  have hm2 : m = l * mathCeilDiv t l := hm
  have hmQ : (m : ℚ) = (l : ℚ) * ((mathCeilDiv t l : Nat) : ℚ) := by exact_mod_cast hm2
  have h1Q : (t : ℚ) ≤ (m : ℚ) := by exact_mod_cast h1
  have h2Q : (m : ℚ) < (t : ℚ) + (l : ℚ) := by exact_mod_cast h2
  rw [eq_comm, Int.ceil_eq_iff]
  constructor
  · have key : (((mathCeilDiv t l : Nat) : ℚ) - 1) * (l : ℚ) < (t : ℚ) := by
      have e : (((mathCeilDiv t l : Nat) : ℚ) - 1) * (l : ℚ) = (m : ℚ) - (l : ℚ) := by
        rw [hmQ]
        ring
      rw [e]
      linarith
    have hlt : ((mathCeilDiv t l : Nat) : ℚ) - 1 < (t : ℚ) / (l : ℚ) := by
      rw [lt_div_iff₀ hl0]
      exact key
    calc (((mathCeilDiv t l : Nat) : ℤ) : ℚ) - 1
        = ((mathCeilDiv t l : Nat) : ℚ) - 1 := by push_cast; ring
      _ < (t : ℚ) / (l : ℚ) := hlt
  · have key : (t : ℚ) ≤ ((mathCeilDiv t l : Nat) : ℚ) * (l : ℚ) := by
      rw [mul_comm, ← hmQ]
      exact h1Q
    have hle : (t : ℚ) / (l : ℚ) ≤ ((mathCeilDiv t l : Nat) : ℚ) := by
      rw [div_le_iff₀ hl0]
      exact key
    calc (t : ℚ) / (l : ℚ) ≤ ((mathCeilDiv t l : Nat) : ℚ) := hle
      _ = (((mathCeilDiv t l : Nat) : ℤ) : ℚ) := by push_cast; ring

/-! Claim theorems. -/

/-- C1 (counterexample): on the syntactically invalid identifier
"not-a-valid-objectid-xyz" the single-article fetch responds 500, not
the claimed 400 (the handler has no validity check; the ObjectId
constructor throws and the catch block answers 500). -/
theorem getById_invalid_counterexample :
    ObjectId.isValid "not-a-valid-objectid-xyz" = false ∧
    (getByIdHandler ([] : List (String × Nat)) "not-a-valid-objectid-xyz").status = 500 ∧
    (getByIdHandler ([] : List (String × Nat)) "not-a-valid-objectid-xyz").status ≠ 400 ∧
    (getByIdHandler ([] : List (String × Nat)) "not-a-valid-objectid-xyz").storeQueried
      = false :=
  ⟨by decide, by decide, by decide, by decide⟩

/-- C1 (amended): for every syntactically invalid identifier, the
single-article fetch (GET /api/search/:id) fails with HTTP 500 and
issues no store query: the ObjectId constructor throws before the
findOne call and the catch block answers 500. -/
theorem getById_invalid_id_500_no_store {α : Type} (store : List (String × α)) (id : String)
    (h : ObjectId.isValid id = false) :
    (getByIdHandler store id).status = 500 ∧
    (getByIdHandler store id).body = none ∧
    (getByIdHandler store id).storeQueried = false := by
  simp [getByIdHandler, h]

/-- C1 (witness): the amended behavior at the concrete invalid id "zz"
on the empty store. -/
theorem getById_invalid_witness :
    (getByIdHandler ([] : List (String × Nat)) "zz").status = 500 ∧
    (getByIdHandler ([] : List (String × Nat)) "zz").body = none ∧
    (getByIdHandler ([] : List (String × Nat)) "zz").storeQueried = false :=
  getById_invalid_id_500_no_store ([] : List (String × Nat)) "zz" (by decide)

/-- C2 (counterexample): with intensity = "abc", a non-empty string that
does not parse as an integer, the built filter does contain an
intensity predicate, whose value is the NaN parse result — the field is
not treated as absent. -/
theorem intensity_nan_counterexample :
    jsParseInt "abc" = none ∧
    (buildFilters { emptyQ with intensity := some "abc" }).intensity = some none ∧
    (buildFilters { emptyQ with intensity := some "abc" }).intensity ≠ none :=
  ⟨by decide, by decide, by decide⟩

/-- C2 (amended): for every list request whose numeric filter parameter
(intensity, relevance, likelihood or end_year) is a non-empty string
that does not parse as an integer, the Filter Builder adds the
corresponding predicate with the NaN parse result as its value (which
silently matches no document), rather than treating the field as
absent. -/
theorem unparseable_numeric_added_as_nan (q : QueryParams) (s : String)
    (hs : s ≠ "") (hp : jsParseInt s = none) :
    (q.intensity = some s → (buildFilters q).intensity = some none) ∧
    (q.relevance = some s → (buildFilters q).relevance = some none) ∧
    (q.likelihood = some s → (buildFilters q).likelihood = some none) ∧
    (q.end_year = some s → (buildFilters q).end_year = some none) := by
  refine ⟨fun h => ?_, fun h => ?_, fun h => ?_, fun h => ?_⟩ <;>
    simp [buildFilters, truthy, strOf, h, hs, hp]

/-- C2 (witness): the amended behavior at the concrete unparseable
relevance value "x7". -/
theorem unparseable_numeric_witness :
    (buildFilters { emptyQ with relevance := some "x7" }).relevance = some none :=
  (unparseable_numeric_added_as_nan { emptyQ with relevance := some "x7" } "x7"
    (by decide) (by decide)).2.1 rfl

/-- C3: deleteMany (DELETE /api/search/multiple) on an id list with at
least one malformed id fails with 400, deletes nothing and never
queries the store; on a list of all well-formed ids it responds 200
with a message carrying the count of records actually deleted (the
drop in store length), which never exceeds the store size and is
independent of the list length. -/
theorem deleteMany_atomic_validation {α : Type} (store : List (String × α))
    (ids : List String) :
    ((∃ i ∈ ids, ObjectId.isValid i = false) →
      (deleteManyHandler store ids).status = 400 ∧
      (deleteManyHandler store ids).newStore = store ∧
      (deleteManyHandler store ids).storeQueried = false) ∧
    ((∀ i ∈ ids, ObjectId.isValid i = true) →
      (deleteManyHandler store ids).status = 200 ∧
      (deleteManyHandler store ids).storeQueried = true ∧
      (deleteManyHandler store ids).message =
        some (toString (store.length - (deleteManyHandler store ids).newStore.length) ++
          " records deleted successfully") ∧
      store.length - (deleteManyHandler store ids).newStore.length ≤ store.length) := by
  cases hv : ids.any (fun id => ! ObjectId.isValid id) with
  | true =>
    refine ⟨fun _ => by simp [deleteManyHandler, hv], fun hall => absurd hv ?_⟩
    simp only [List.any_eq_true, Bool.not_eq_true', ne_eq]
    push_neg
    intro i hi
    simp [hall i hi]
  | false =>
    constructor
    · rintro ⟨i, hi, hbad⟩
      rw [List.any_eq_false] at hv
      have := hv i hi
      simp [hbad] at this
    · intro _
      have key := store_filter_split store ids
      have hNew : (deleteManyHandler store ids).newStore =
          store.filter (fun d => ! ids.any (fun i => oidEq i d.1)) := by
        simp [deleteManyHandler, hv]
      have hMsg : (deleteManyHandler store ids).message =
          some (toString ((store.filter (fun d => ids.any (fun i => oidEq i d.1))).length) ++
            " records deleted successfully") := by
        simp [deleteManyHandler, hv]
      have hCount : (store.filter (fun d => ids.any (fun i => oidEq i d.1))).length =
          store.length - (deleteManyHandler store ids).newStore.length := by
        rw [hNew]
        omega
      refine ⟨by simp [deleteManyHandler, hv], by simp [deleteManyHandler, hv], ?_, ?_⟩
      · rw [hMsg, hCount]
      · rw [hNew]
        omega

/-- C3 (witness): the malformed id "zz" in a singleton id list makes
the handler answer 400 without touching the one-record store. -/
theorem deleteMany_atomic_witness :
    (deleteManyHandler [("aaaaaaaaaaaaaaaaaaaaaaaa", (1 : Nat))] ["zz"]).status = 400 ∧
    (deleteManyHandler [("aaaaaaaaaaaaaaaaaaaaaaaa", (1 : Nat))] ["zz"]).newStore =
      [("aaaaaaaaaaaaaaaaaaaaaaaa", (1 : Nat))] ∧
    (deleteManyHandler [("aaaaaaaaaaaaaaaaaaaaaaaa", (1 : Nat))] ["zz"]).storeQueried
      = false :=
  (deleteMany_atomic_validation [("aaaaaaaaaaaaaaaaaaaaaaaa", (1 : Nat))] ["zz"]).1
    ⟨"zz", by decide, by decide⟩

/-- C4: when neither start_date nor end_date is supplied the filter has
no date predicate; a supplied start_date puts a greater-or-equal bound
with that date on both added and published; a supplied end_date puts a
less-or-equal bound with that date on both; and a range condition that
appears in the filter always has at least one bound set. -/
theorem date_range_filter (q : QueryParams) :
    (truthy q.start_date = false → truthy q.end_date = false →
      (buildFilters q).added = none ∧ (buildFilters q).published = none) ∧
    (truthy q.start_date = true →
      ∃ rc : RangeCond, (buildFilters q).added = some rc ∧
        (buildFilters q).published = some rc ∧ rc.gte = some (strOf q.start_date)) ∧
    (truthy q.end_date = true →
      ∃ rc : RangeCond, (buildFilters q).added = some rc ∧
        (buildFilters q).published = some rc ∧ rc.lte = some (strOf q.end_date)) ∧
    (∀ rc : RangeCond,
      (buildFilters q).added = some rc ∨ (buildFilters q).published = some rc →
      rc.gte ≠ none ∨ rc.lte ≠ none) := by
  cases hs : truthy q.start_date <;> cases he : truthy q.end_date <;>
    simp [buildFilters, hs, he]

/-- C4 (witness): supplying only start_date = "2024-01-01" puts that
lower bound on added and published. -/
theorem date_range_witness :
    ∃ rc : RangeCond,
      (buildFilters { emptyQ with start_date := some "2024-01-01" }).added = some rc ∧
      (buildFilters { emptyQ with start_date := some "2024-01-01" }).published = some rc ∧
      rc.gte = some "2024-01-01" :=
  (date_range_filter { emptyQ with start_date := some "2024-01-01" }).2.1 (by decide)

/-- C5: for a successful list request with page p ≥ 1 and limit l ≥ 1
over the matching records, the envelope has totalRecords equal to the
matching count, totalPages equal to the exact rational ceiling of
totalRecords / limit, currentPage = p, articles equal to the store
slice with skip (p - 1) * l and limit l, and a page beyond totalPages
yields an empty article list rather than an error. -/
theorem list_pagination_envelope {α : Type} (matching : List α) (p l : Nat)
    (hp : 1 ≤ p) (hl : 1 ≤ l) :
    (listEndpoint matching p l).totalRecords = matching.length ∧
    ((listEndpoint matching p l).totalPages : ℤ) =
      Int.ceil ((matching.length : ℚ) / (l : ℚ)) ∧
    (listEndpoint matching p l).currentPage = p ∧
    (listEndpoint matching p l).articles = (matching.drop ((p - 1) * l)).take l ∧
    ((listEndpoint matching p l).totalPages < p →
      (listEndpoint matching p l).articles = []) := by
  refine ⟨rfl, mathCeilDiv_eq_ceil matching.length l hl, rfl, rfl, fun hbeyond => ?_⟩
  have hb : mathCeilDiv matching.length l < p := hbeyond
  have h1 : matching.length ≤ mathCeilDiv matching.length l * l :=
    le_mathCeilDiv_mul matching.length l hl
  have h2 : mathCeilDiv matching.length l * l ≤ (p - 1) * l := by
    apply Nat.mul_le_mul_right
    omega
  have h3 : matching.length ≤ (p - 1) * l := le_trans h1 h2
  show (matching.drop ((p - 1) * l)).take l = []
  rw [List.drop_eq_nil_of_le h3, List.take_nil]

/-- C5 (witness): five matching records, page 4, limit 2: totalPages is
3 and the out-of-range page yields an empty article list. -/
theorem list_pagination_witness :
    (listEndpoint ([0, 1, 2, 3, 4] : List Nat) 4 2).totalRecords =
        ([0, 1, 2, 3, 4] : List Nat).length ∧
    ((listEndpoint ([0, 1, 2, 3, 4] : List Nat) 4 2).totalPages : ℤ) =
      Int.ceil (((([0, 1, 2, 3, 4] : List Nat).length : Nat) : ℚ) / ((2 : Nat) : ℚ)) ∧
    (listEndpoint ([0, 1, 2, 3, 4] : List Nat) 4 2).currentPage = 4 ∧
    (listEndpoint ([0, 1, 2, 3, 4] : List Nat) 4 2).articles =
      (([0, 1, 2, 3, 4] : List Nat).drop ((4 - 1) * 2)).take 2 ∧
    ((listEndpoint ([0, 1, 2, 3, 4] : List Nat) 4 2).totalPages < 4 →
      (listEndpoint ([0, 1, 2, 3, 4] : List Nat) 4 2).articles = []) :=
  list_pagination_envelope ([0, 1, 2, 3, 4] : List Nat) 4 2 (by decide) (by decide)

/-- C6 (counterexample): with the parameter page = "0" the pagination
descriptor carries page 0, which is an integer but not ≥ 1: the
handler applies no lower bound to supplied values. -/
theorem pagination_page_zero_counterexample :
    pageNum { emptyQ with page := some "0" } = some 0 ∧ ¬ ((1 : Int) ≤ 0) :=
  ⟨by decide, by decide⟩

/-- C6 (amended): the pagination descriptor defaults to page = 1 and
limit = 20 when the parameters are omitted; supplied values are parsed
with parseInt and are not constrained to be at least 1. -/
theorem pagination_defaults (q : QueryParams) :
    (q.page = none → pageNum q = some 1) ∧
    (q.limit = none → limitNum q = some 20) := by
  constructor
  · intro h
    unfold pageNum
    rw [h]
    decide
  · intro h
    unfold limitNum
    rw [h]
    decide

/-- C6 (witness): the defaults at a request with no query string. -/
theorem pagination_defaults_witness :
    pageNum emptyQ = some 1 ∧ limitNum emptyQ = some 20 :=
  ⟨(pagination_defaults emptyQ).1 rfl, (pagination_defaults emptyQ).2 rfl⟩

/-- C7 (counterexample): the query string "a.c" is compiled as a
regular expression, so the filter accepts the title "abc" even though
"a.c" is not a substring of it: the title condition is not exactly
case-insensitive substring match. -/
theorem query_regex_counterexample :
    (buildFilters { emptyQ with query := some "a.c" }).title = some "a.c" ∧
    docTitleMatches (buildFilters { emptyQ with query := some "a.c" }) "abc" = some true ∧
    containsCI "abc" "a.c" = false :=
  ⟨by decide, by decide, by decide⟩

/-- Sanity checks pinning the regex model to JavaScript semantics on
the quantifiers and the wildcard: "ab*" accepts "aab" (zero-or-more,
where literal substring containment would say no), "ab+c" rejects
"ac", "ab?c" accepts "ac", "a.c" rejects a newline under the dot, and
a dangling quantifier or an uninterpreted metacharacter puts the
pattern outside the modelled subset. -/
theorem regex_model_sanity :
    regexTestI "ab*" "aab" = some true ∧
    containsCI "aab" "ab*" = false ∧
    regexTestI "ab+c" "ac" = some false ∧
    regexTestI "ab?c" "ac" = some true ∧
    regexTestI "a.c" "a\nc" = some false ∧
    regexTestI "*a" "aaa" = none ∧
    regexTestI "a(b" "ab" = none :=
  ⟨by decide, by decide, by decide, by decide, by decide, by decide, by decide⟩

/-- C7 (amended): the query parameter is interpreted as a
case-insensitive regular expression over the title; for every
non-empty query string containing no regex syntax character the
resulting title condition coincides exactly with case-insensitive
substring match. -/
theorem query_literal_is_substring (q : QueryParams) (p t : String)
    (hq : q.query = some p) (hne : p ≠ "")
    (hnd : ∀ c ∈ p.toList, isRegexMeta c = false) :
    docTitleMatches (buildFilters q) t = some (containsCI t p) := by
  have htitle : (buildFilters q).title = some p := by
    simp [buildFilters, truthy, hq, hne, strOf]
  simp only [docTitleMatches, htitle, regexTestI, containsCI]
  rw [parseAtoms_literal p.toList hnd]
  simp only [Option.map_some']
  rw [searchSeq_literal]

/-- C7 (witness): the metacharacter-free query "abc" against the title
"xxABCyy" behaves exactly as case-insensitive substring containment. -/
theorem query_literal_witness :
    docTitleMatches (buildFilters { emptyQ with query := some "abc" }) "xxABCyy" =
      some (containsCI "xxABCyy" "abc") :=
  query_literal_is_substring { emptyQ with query := some "abc" } "abc" "xxABCyy"
    rfl (by decide) (by decide)

/-- C8: a recognized filter field that is present in the request with
an empty (falsy) raw value is excluded from the predicate exactly as if
it were absent: for every field, building the filter from the field set
to "" equals building it from the field removed. -/
theorem empty_param_excluded (q : QueryParams) :
    buildFilters { q with query := some "" } = buildFilters { q with query := none } ∧
    buildFilters { q with end_year := some "" } = buildFilters { q with end_year := none } ∧
    buildFilters { q with intensity := some "" } = buildFilters { q with intensity := none } ∧
    buildFilters { q with sector := some "" } = buildFilters { q with sector := none } ∧
    buildFilters { q with topic := some "" } = buildFilters { q with topic := none } ∧
    buildFilters { q with region := some "" } = buildFilters { q with region := none } ∧
    buildFilters { q with start_year := some "" } = buildFilters { q with start_year := none } ∧
    buildFilters { q with country := some "" } = buildFilters { q with country := none } ∧
    buildFilters { q with relevance := some "" } = buildFilters { q with relevance := none } ∧
    buildFilters { q with pestle := some "" } = buildFilters { q with pestle := none } ∧
    buildFilters { q with source := some "" } = buildFilters { q with source := none } ∧
    buildFilters { q with likelihood := some "" } = buildFilters { q with likelihood := none } ∧
    buildFilters { q with start_date := some "" } = buildFilters { q with start_date := none } ∧
    buildFilters { q with end_date := some "" } = buildFilters { q with end_date := none } := by
  refine ⟨?_, ?_, ?_, ?_, ?_, ?_, ?_, ?_, ?_, ?_, ?_, ?_, ?_, ?_⟩ <;> rfl

/-- C9: the filter builder and the pagination parsing are deterministic
pure functions of the query parameters: identical input yields an
identical filter predicate and identical pagination descriptor. -/
theorem filter_builder_deterministic (q1 q2 : QueryParams) (h : q1 = q2) :
    buildFilters q1 = buildFilters q2 ∧ pageNum q1 = pageNum q2 ∧
      limitNum q1 = limitNum q2 := by
  subst h
  exact ⟨rfl, rfl, rfl⟩

/-- C9 (witness): determinism at the empty query-parameter set. -/
theorem filter_builder_deterministic_witness :
    buildFilters emptyQ = buildFilters emptyQ ∧ pageNum emptyQ = pageNum emptyQ ∧
      limitNum emptyQ = limitNum emptyQ :=
  filter_builder_deterministic emptyQ emptyQ rfl

/-- C10: deleteMany on the empty id list passes validation, performs a
bulk delete matching nothing, leaves every store unchanged and answers
200 with the message "0 records deleted successfully". -/
theorem deleteMany_empty_ids (store : List (String × Nat)) :
    (deleteManyHandler store []).status = 200 ∧
    (deleteManyHandler store []).message = some "0 records deleted successfully" ∧
    (deleteManyHandler store []).newStore = store ∧
    (deleteManyHandler store []).storeQueried = true := by
  refine ⟨by simp [deleteManyHandler], ?_, by simp [deleteManyHandler],
    by simp [deleteManyHandler]⟩
  have h0 : (toString (0 : Nat) ++ " records deleted successfully") =
      "0 records deleted successfully" := rfl
  simp [deleteManyHandler, h0]

end BlackcofferApi
